import Mathlib

/-!
Verification of the request-routing core of the jina repository against its
natural-language specification.

Part 1 embeds `AsyncRequestsIterator` from `jina/serve/stream/helper.py`:
the async wrapper that pumps a client-supplied iterator behind a single async
interface, with prefetch back-pressure against a shared in-flight counter.

Part 2 models the Gateway graph traversal, the Head shard dispatch and the
Worker endpoint table.  That code is not part of the provided sources (only
its integration tests are), so those definitions are modelled from the spec,
with behaviour pinned by the repository's tests where the spec is ambiguous.
-/

/-
======================= Part 1: AsyncRequestsIterator =======================

`AsyncRequestsIterator.__init__(iterator, request_counter, prefetch)` wraps
either a synchronous `Iterator` or an `AsyncIterator`.  A synchronous
iterator can yield Python `None` as an ordinary element, so the elements of
a synchronous iterator are modelled as `Option α` (with `none` standing for
the Python value `None`).  An object that is an instance of neither runtime
type is modelled by the constructor `other`.
-/

/-- The runtime shape of the object wrapped by `AsyncRequestsIterator`:
a synchronous `Iterator` (whose remaining elements may include Python
`None`, modelled as `Option α`), an `AsyncIterator`, or any other object
(neither `isinstance` check succeeds). -/
inductive WrappedIterator (α : Type) where
  | sync (items : List (Option α))
  | async (items : List (Option α))
  | other
  deriving DecidableEq, Repr

/-- Embedding of `AsyncRequestsIterator.iterator__next__` (helper.py lines
47-57): pull one element from the synchronous iterator, catching
`StopIteration` and turning it into a returned `None`.  The first component
is the Python value returned (`none` both for an exhausted iterator and for
a yielded Python `None`); the second is the iterator state afterwards. -/
def iterator__next__ {α : Type} (items : List (Option α)) :
    Option α × List (Option α) :=
  match items with
  | [] => (none, [])
  | x :: rest => (x, rest)

/-- The possible outcomes of one call to `AsyncRequestsIterator.__anext__`
once the prefetch wait (if any) has completed: return a Python value
(possibly `None` on the async path), raise `StopAsyncIteration`, or hit the
`return request` statement with the local `request` never assigned, which
raises `UnboundLocalError`. -/
inductive AnextResult (α : Type) where
  | returns (r : Option α) (rest : WrappedIterator α)
  | stopAsyncIteration (rest : WrappedIterator α)
  | unboundLocalError
  deriving DecidableEq, Repr

/-- Embedding of the body of `__anext__` (helper.py lines 66-88), after the
prefetch wait: the `isinstance(self.iterator, Iterator)` branch pulls via
`iterator__next__` and raises `StopAsyncIteration` when the returned value
is `None`; the `isinstance(self.iterator, AsyncIterator)` branch awaits the
inner `__anext__` (whose end-of-stream `StopAsyncIteration` propagates);
with neither instance check satisfied, `return request` raises
`UnboundLocalError`. -/
def anextBody {α : Type} : WrappedIterator α → AnextResult α
  | WrappedIterator.sync items =>
      match iterator__next__ items with
      | (none, rest) => AnextResult.stopAsyncIteration (WrappedIterator.sync rest)
      | (some r, rest) => AnextResult.returns (some r) (WrappedIterator.sync rest)
  | WrappedIterator.async [] =>
      AnextResult.stopAsyncIteration (WrappedIterator.async [])
  | WrappedIterator.async (x :: rest) =>
      AnextResult.returns x (WrappedIterator.async rest)
  | WrappedIterator.other => AnextResult.unboundLocalError

/-- Embedding of the busy-wait loop of `__anext__` (helper.py lines 63-65):
`while self._request_counter.count >= self._prefetch: await asyncio.sleep(0)`.
The argument is the trace of successive values read from
`request_counter.count`; the result is the number of failed checks before a
reading below `prefetch` let the loop exit, or `none` when the loop was
still spinning after the whole observed trace. -/
def waitForCounter (prefetch : Nat) : List Nat → Option Nat
  | [] => none
  | c :: cs =>
      if prefetch ≤ c then (waitForCounter prefetch cs).map (· + 1)
      else some 0

/-- Embedding of `AsyncRequestsIterator.__anext__` (helper.py lines 62-88):
if `prefetch > 0`, spin on the counter trace until a reading is below
`prefetch` (result `none` when the observed trace never lets the loop
exit), then run the body. -/
def anext {α : Type} (prefetch : Nat) (counts : List Nat)
    (it : WrappedIterator α) : Option (AnextResult α) :=
  if 0 < prefetch then
    match waitForCounter prefetch counts with
    | none => none
    | some _ => some (anextBody it)
  else some (anextBody it)

/-- When `waitForCounter` exits after `k` failed checks, the `k`-th counter
reading is below `prefetch` and every earlier reading was at least
`prefetch`. -/
theorem waitForCounter_spec (prefetch : Nat) :
    ∀ (counts : List Nat) (k : Nat), waitForCounter prefetch counts = some k →
      k < counts.length ∧ counts.getD k 0 < prefetch ∧
        ∀ c ∈ counts.take k, prefetch ≤ c := by
  intro counts
  induction counts with
  | nil => intro k h; simp [waitForCounter] at h
  | cons c cs ih =>
      intro k h
      by_cases hc : prefetch ≤ c
      · simp [waitForCounter, hc] at h
        obtain ⟨k', hk', rfl⟩ := h
        obtain ⟨h1, h2, h3⟩ := ih k' hk'
        refine ⟨by simpa using Nat.succ_lt_succ h1, by simpa using h2, ?_⟩
        intro x hx
        simp [List.take] at hx
        rcases hx with rfl | hx
        · exact hc
        · exact h3 x hx
      · simp [waitForCounter, hc] at h
        subst h
        refine ⟨by simp, by simpa using Nat.lt_of_not_le hc, ?_⟩
        intro x hx
        simp at hx

/-- Whenever `anext` completes at all, its outcome is `anextBody` of the
wrapped iterator: the prefetch wait never changes what is pulled. -/
theorem anext_eq_some {α : Type} (prefetch : Nat) (counts : List Nat)
    (it : WrappedIterator α) (res : AnextResult α)
    (h : anext prefetch counts it = some res) : res = anextBody it := by
  unfold anext at h
  by_cases hp : 0 < prefetch
  · simp [hp] at h
    cases hw : waitForCounter prefetch counts with
    | none => rw [hw] at h; simp at h
    | some k => rw [hw] at h; simp at h; exact h.symm
  · simp [hp] at h
    exact h.symm

/-- C1: with prefetch `P > 0`, `__anext__` does not proceed to pull from the
underlying iterator while the in-flight counter reads at least `P`: every
counter reading observed before the pull is `≥ P`, and the pull happens only
after a reading strictly below `P`. -/
theorem anext_respects_prefetch {α : Type} (P : Nat) (counts : List Nat)
    (it : WrappedIterator α) (res : AnextResult α)
    (hP : 0 < P) (h : anext P counts it = some res) :
    ∃ k, k < counts.length ∧ counts.getD k 0 < P ∧
      ∀ c ∈ counts.take k, P ≤ c := by
  unfold anext at h
  simp [hP] at h
  cases hw : waitForCounter P counts with
  | none => rw [hw] at h; simp at h
  | some k => exact ⟨k, waitForCounter_spec P counts k hw⟩

/-- Witness for C1 at `P = 1`, counter trace `[2, 2, 0]`, a synchronous
iterator holding one request. -/
theorem anext_respects_prefetch_witness :
    ∃ k, k < [2, 2, 0].length ∧ [2, 2, 0].getD k 0 < 1 ∧
      ∀ c ∈ [2, 2, 0].take k, 1 ≤ c :=
  anext_respects_prefetch 1 [2, 2, 0] (WrappedIterator.sync [some 7])
    (AnextResult.returns (some 7) (WrappedIterator.sync []))
    (by decide) (by decide)

/-- C2: with prefetch `0`, `__anext__` skips the counter wait entirely — for
every counter trace it completes with the body's outcome — and in particular
it immediately pulls and returns the next request of a synchronous
iterator. -/
theorem anext_prefetch_zero_no_wait {α : Type} (counts : List Nat)
    (it : WrappedIterator α) (r : α) (rest : List (Option α)) :
    anext 0 counts it = some (anextBody it) ∧
      anext 0 counts (WrappedIterator.sync (some r :: rest)) =
        some (AnextResult.returns (some r) (WrappedIterator.sync rest)) := by
  constructor
  · simp [anext]
  · simp [anext, anextBody, iterator__next__]

/-- C3: when the synchronous iterator is exhausted (`__next__` raises
`StopIteration`, which `iterator__next__` converts to a returned `None`),
`__anext__` raises `StopAsyncIteration` rather than returning a value. -/
theorem anext_exhausted_stops {α : Type} (P : Nat) (counts : List Nat)
    (res : AnextResult α)
    (h : anext P counts (WrappedIterator.sync []) = some res) :
    res = AnextResult.stopAsyncIteration (WrappedIterator.sync []) := by
  have := anext_eq_some P counts (WrappedIterator.sync []) res h
  simpa [anextBody, iterator__next__] using this

/-- Witness for C3 at prefetch `0` over an exhausted iterator of `Nat`
requests. -/
theorem anext_exhausted_stops_witness :
    (AnextResult.stopAsyncIteration (WrappedIterator.sync ([] : List (Option Nat)))) =
      AnextResult.stopAsyncIteration (WrappedIterator.sync []) :=
  anext_exhausted_stops 0 []
    (AnextResult.stopAsyncIteration (WrappedIterator.sync [])) (by decide)

/-- C9: when the synchronous iterator yields the Python value `None` as an
ordinary element, `__anext__` raises `StopAsyncIteration` exactly as at
end-of-stream, even though further elements remain in the iterator. -/
theorem anext_none_element_stops {α : Type} (P : Nat) (counts : List Nat)
    (rest : List (Option α)) (res : AnextResult α)
    (h : anext P counts (WrappedIterator.sync (none :: rest)) = some res) :
    res = AnextResult.stopAsyncIteration (WrappedIterator.sync rest) := by
  have := anext_eq_some P counts (WrappedIterator.sync (none :: rest)) res h
  simpa [anextBody, iterator__next__] using this

/-- Witness for C9: the iterator still holds the request `5` after the
yielded `None`, yet the stream is terminated. -/
theorem anext_none_element_stops_witness :
    (AnextResult.stopAsyncIteration (WrappedIterator.sync [some (5 : Nat)])) =
      AnextResult.stopAsyncIteration (WrappedIterator.sync [some 5]) :=
  anext_none_element_stops 0 [] [some 5]
    (AnextResult.stopAsyncIteration (WrappedIterator.sync [some 5])) (by decide)

/-- C10: when the wrapped object is neither an `Iterator` nor an
`AsyncIterator`, `__anext__` reaches `return request` with `request` never
assigned and fails with `UnboundLocalError` instead of returning a
request. -/
theorem anext_other_unbound {α : Type} (P : Nat) (counts : List Nat)
    (res : AnextResult α)
    (h : anext P counts WrappedIterator.other = some res) :
    res = AnextResult.unboundLocalError := by
  have := anext_eq_some P counts WrappedIterator.other res h
  simpa [anextBody] using this

/-- Witness for C10 over `Nat` requests at prefetch `0`. -/
theorem anext_other_unbound_witness :
    (AnextResult.unboundLocalError : AnextResult Nat) =
      AnextResult.unboundLocalError :=
  anext_other_unbound 0 [] AnextResult.unboundLocalError (by decide)

/-
==================== Part 2: Gateway / Head / Worker models ====================

The Gateway, Head and Worker runtimes are not among the provided sources;
only their integration tests are.  The definitions below are therefore
modelled from the spec, with the response cardinality of the Gateway pinned
by the repository's own integration tests where the spec disagrees with
them.
-/

/-- A document as far as the routing core inspects it: an identity, a text
payload and an optional shard tag. -/
structure Doc where
  id : Nat
  text : String
  tag : Option Nat
  deriving DecidableEq, Repr

/-- A request's document list; the routing core treats a request as the
ordered list of documents it carries. -/
abbrev Req := List Doc

/-- A node of the topology graph: the distinguished `start-gateway` source,
the distinguished `end-gateway` sink, or a pod. -/
inductive GNode (ν : Type) where
  | start
  | finish
  | pod (p : ν)
  deriving DecidableEq, Repr

/-- Modelled from the spec: a topology graph is an adjacency list over pod
names with distinguished `start-gateway` and `end-gateway` nodes; edges are
forward data flow. -/
structure Graph (ν : Type) where
  succ : GNode ν → List (GNode ν)

/-- The processing a node applies to a request before propagating it: a pod
applies its executor, the gateway endpoints pass the request through. -/
def applyStage {ν : Type} (execs : ν → Req → Req) : GNode ν → Req → Req
  | GNode.pod p, r => execs p r
  | _, r => r

/-- Modelled from the spec (§4.3): the traversal of the DAG for one request,
collecting, per start-to-end path, the request as processed along that path
when it arrives at `end-gateway`.  A pod with no successors (hanging pod)
contributes nothing.  `fuel` bounds the path length, which suffices because
topology graphs are acyclic. -/
def traverseGraph {ν : Type} (g : Graph ν) (execs : ν → Req → Req) :
    Nat → GNode ν → Req → List Req
  | _, GNode.finish, r => [r]
  | 0, _, _ => []
  | fuel + 1, n, r =>
      (g.succ n).flatMap fun s => traverseGraph g execs fuel s (applyStage execs n r)

/-- The number of start-to-end paths (within `fuel` steps) from a node to
`end-gateway`, the quantity the spec calls `paths-to-end-gateway`. -/
def pathsToEnd {ν : Type} (g : Graph ν) : Nat → GNode ν → Nat
  | _, GNode.finish => 1
  | 0, _ => 0
  | fuel + 1, n => ((g.succ n).map (pathsToEnd g fuel)).sum

/-- Keep the first occurrence of each document id, in order; `seen` holds
the ids already emitted. -/
def dedupByIdAux : List Nat → List Doc → List Doc
  | _, [] => []
  | seen, d :: ds =>
      if d.id ∈ seen then dedupByIdAux seen ds
      else d :: dedupByIdAux (d.id :: seen) ds

/-- Documents are merged by identity (by id): concatenation keeping the
first occurrence of each document id. -/
def dedupById (docs : List Doc) : List Doc := dedupByIdAux [] docs

/-- Merge of the per-path results arriving at `end-gateway` for a single
request: concatenation followed by deduplication by document id. -/
def mergeAll (rs : List Req) : Req := dedupById rs.flatten

/-- Modelled from the spec (§4.3) with the response cardinality pinned by
`test_runtimes_flow_topology`: for one client request the Gateway merges
everything arriving at `end-gateway` into a single response (the test sends
20 requests through a branching graph and asserts exactly 20 responses);
a request none of whose paths reach `end-gateway` produces no response. -/
def gatewayProcess {ν : Type} (g : Graph ν) (execs : ν → Req → Req)
    (fuel : Nat) (r : Req) : Option Req :=
  let rs := traverseGraph g execs fuel GNode.start r
  if rs.isEmpty then none else some (mergeAll rs)

/-- The Gateway's handling of a whole client stream: each request yields
its merged response, requests reaching no path to `end-gateway` yield
none. -/
def gatewayRun {ν : Type} (g : Graph ν) (execs : ν → Req → Req)
    (fuel : Nat) (reqs : List Req) : List Req :=
  reqs.filterMap (gatewayProcess g execs fuel)

/-- The single pod of the trivial topology of
`test_runtimes_trivial_topology`. -/
inductive TrivialPod where
  | pod0
  deriving DecidableEq, Repr

/-- The trivial topology of the test:
`{"start-gateway": ["pod0"], "pod0": ["end-gateway"]}`. -/
def trivialGraph : Graph TrivialPod where
  succ
    | GNode.start => [GNode.pod TrivialPod.pod0]
    | GNode.pod TrivialPod.pod0 => [GNode.finish]
    | GNode.finish => []

/-- The identity executor: the default worker of the runtimes tests leaves
the document list unchanged. -/
def identityExec {ν : Type} : ν → Req → Req := fun _ r => r

/-- The single document each client request of the runtimes tests carries:
`Document(text='client0-Request')`. -/
def clientDoc : Doc := { id := 0, text := "client0-Request", tag := none }

/-- The pods of the `complete_graph_dict` fixture of
`test_runtimes_flow_topology`. -/
inductive FlowPod where
  | pod0
  | pod1
  | pod2
  | pod3
  | pod4
  | pod5
  | pod6
  | merger
  | podLast
  deriving DecidableEq, Repr

/-- The `complete_graph_dict` topology of the flow-topology test, with
`pod6` hanging (no successors). -/
def flowGraph : Graph FlowPod where
  succ
    | GNode.start => [GNode.pod FlowPod.pod0, GNode.pod FlowPod.pod4,
        GNode.pod FlowPod.pod6]
    | GNode.pod FlowPod.pod0 => [GNode.pod FlowPod.pod1, GNode.pod FlowPod.pod2]
    | GNode.pod FlowPod.pod1 => [GNode.finish]
    | GNode.pod FlowPod.pod2 => [GNode.pod FlowPod.pod3]
    | GNode.pod FlowPod.pod4 => [GNode.pod FlowPod.pod5]
    | GNode.pod FlowPod.merger => [GNode.pod FlowPod.podLast]
    | GNode.pod FlowPod.pod5 => [GNode.pod FlowPod.merger]
    | GNode.pod FlowPod.pod3 => [GNode.pod FlowPod.merger]
    | GNode.pod FlowPod.pod6 => []
    | GNode.pod FlowPod.podLast => [GNode.finish]
    | GNode.finish => []

/-- `test_runtimes_flow_topology` sends 20 client requests. -/
def flowTopologyTestRequests : Nat := 20

/-- `test_runtimes_flow_topology` asserts `len(response_list) == 20`:
exactly 20 responses come back for the 20 requests. -/
def flowTopologyTestExpectedResponses : Nat := 20

/-- The per-path emissions of `traverseGraph` are exactly one per start-to-end
path: the traversal visits every path exactly once. -/
theorem traverse_length {ν : Type} (g : Graph ν) (execs : ν → Req → Req) :
    ∀ (fuel : Nat) (n : GNode ν) (r : Req),
      (traverseGraph g execs fuel n r).length = pathsToEnd g fuel n := by
  intro fuel
  induction fuel with
  | zero => intro n r; cases n <;> simp [traverseGraph, pathsToEnd]
  | succ fuel ih =>
      intro n r
      have key : ∀ (l : List (GNode ν)) (r' : Req),
          (l.flatMap fun s => traverseGraph g execs fuel s r').length =
            (l.map (pathsToEnd g fuel)).sum := by
        intro l r'
        induction l with
        | nil => simp
        | cons s l ihl => simp [ihl, ih s r']
      cases n with
      | finish => simp [traverseGraph, pathsToEnd]
      | start => simpa [traverseGraph, pathsToEnd] using key (g.succ GNode.start) r
      | pod p =>
          simpa [traverseGraph, pathsToEnd] using
            key (g.succ (GNode.pod p)) (execs p r)

/-- C4: through the trivial topology (start → pod0 → end) with the identity
executor, a stream of 20 requests each carrying one document with text
`client0-Request` yields exactly 20 responses, each containing exactly that
one unchanged document. -/
theorem gateway_trivial_topology :
    gatewayRun trivialGraph identityExec 3 (List.replicate 20 [clientDoc]) =
      List.replicate 20 [clientDoc] := by
  decide

/-- C6 counterexample: the flow-topology graph of the tests has 3 paths from
`start-gateway` to `end-gateway`, yet `test_runtimes_flow_topology` sends 20
requests and asserts exactly 20 responses — one per request, not one per
path per request. -/
theorem gateway_paths_counterexample :
    pathsToEnd flowGraph 10 GNode.start = 3 ∧
    flowTopologyTestExpectedResponses = flowTopologyTestRequests ∧
    flowTopologyTestExpectedResponses ≠
      flowTopologyTestRequests * pathsToEnd flowGraph 10 GNode.start := by
  decide

/-- C6 (amended): for every acyclic topology, every path from
`start-gateway` to `end-gateway` is traversed exactly once, and whenever at
least one path reaches `end-gateway` the client receives exactly one merged
response per input request; hanging pods contribute no responses. -/
theorem gateway_traversal_amended {ν : Type} (g : Graph ν)
    (execs : ν → Req → Req) (fuel : Nat) (reqs : List Req) (r0 : Req)
    (h : 1 ≤ pathsToEnd g fuel GNode.start) :
    (traverseGraph g execs fuel GNode.start r0).length =
      pathsToEnd g fuel GNode.start ∧
    (gatewayRun g execs fuel reqs).length = reqs.length := by
  refine ⟨traverse_length g execs fuel GNode.start r0, ?_⟩
  have hsome : ∀ r : Req, (gatewayProcess g execs fuel r).isSome := by
    intro r
    have hlen := traverse_length g execs fuel GNode.start r
    have hne : traverseGraph g execs fuel GNode.start r ≠ [] := by
      intro he
      rw [he] at hlen
      simp at hlen
      omega
    simp [gatewayProcess, hne]
  unfold gatewayRun
  induction reqs with
  | nil => rfl
  | cons r l ihl =>
      have hs := hsome r
      cases hv : gatewayProcess g execs fuel r with
      | none => rw [hv] at hs; simp at hs
      | some out => simp [List.filterMap_cons, hv, ihl]

/-- Witness for amended C6: the flow-topology graph with identity executors,
one concrete request. -/
theorem gateway_traversal_amended_witness :
    (traverseGraph flowGraph identityExec 10 GNode.start [clientDoc]).length =
      pathsToEnd flowGraph 10 GNode.start ∧
    (gatewayRun flowGraph identityExec 10 [[clientDoc]]).length =
      [[clientDoc]].length :=
  gateway_traversal_amended flowGraph identityExec 10 [[clientDoc]] [clientDoc]
    (by decide)

/-- Modelled from the spec (§4.2): with polling ALL the Head sends the
working request to every shard (each shard receives the same request) and
merges the shard responses by concatenating their document lists in
shard-index order. -/
def headDispatchAll (shards : List (Req → Req)) (r : Req) : Req :=
  shards.flatMap fun e => e r

/-- A shard executor that appends to its input one document tagged with its
shard index, as `NameChangeExecutor` does in the runtimes tests. -/
def appendTagExec (i : Nat) (r : Req) : Req :=
  r ++ [{ id := 1000 + i, text := "", tag := some i }]

/-- The shard pool of a pod with `n` shards, shard `i` running
`appendTagExec i`. -/
def shardExecs (n : Nat) : List (Req → Req) :=
  (List.range n).map appendTagExec

/-- C7 counterexample: with 10 shards under polling ALL, one input document
and per-shard appenders, the merged response holds 20 documents (each
shard's copy of the input plus its appended document), not
`input_docs + N = 11`. -/
theorem shards_all_doc_count_counterexample :
    (headDispatchAll (shardExecs 10) [clientDoc]).length = 20 ∧
    ¬ (headDispatchAll (shardExecs 10) [clientDoc]).length = 1 + 10 := by
  decide

/-- C7 (amended): with `n` shards under polling ALL, each appending one
document tagged with its shard index, the merged response is the shard
responses concatenated in shard-index order, contains
`n * input_docs + n` documents, and the appended tags are exactly
`0, 1, …, n-1` in order. -/
theorem shards_all_merge (n : Nat) (r : Req) (h : ∀ d ∈ r, d.tag = none) :
    (headDispatchAll (shardExecs n) r).length = n * r.length + n ∧
    headDispatchAll (shardExecs n) r =
      (List.range n).flatMap (fun i => appendTagExec i r) ∧
    (headDispatchAll (shardExecs n) r).filterMap Doc.tag = List.range n := by
  have hEq : headDispatchAll (shardExecs n) r =
      (List.range n).flatMap (fun i => appendTagExec i r) := by
    simp [headDispatchAll, shardExecs, List.flatMap_map]
  have hr : r.filterMap Doc.tag = [] := by
    rw [List.filterMap_eq_nil_iff]
    exact h
  have hlen : ∀ m : Nat,
      ((List.range m).flatMap fun i => appendTagExec i r).length =
        m * r.length + m := by
    intro m
    induction m with
    | zero => simp
    | succ m ihm =>
        rw [List.range_succ]
        simp only [List.flatMap_append, List.flatMap_cons, List.flatMap_nil,
          List.append_nil, List.length_append, ihm]
        simp [appendTagExec]
        ring
  have htag : ∀ m : Nat,
      (((List.range m).flatMap fun i => appendTagExec i r).filterMap
        Doc.tag) = List.range m := by
    intro m
    induction m with
    | zero => simp
    | succ m ihm =>
        rw [List.range_succ]
        simp only [List.flatMap_append, List.flatMap_cons, List.flatMap_nil,
          List.append_nil, List.filterMap_append, ihm]
        simp [appendTagExec, hr]
  refine ⟨?_, hEq, ?_⟩
  · rw [hEq]; exact hlen n
  · rw [hEq]; exact htag n

/-- Witness for amended C7 at 3 shards over one untagged input document. -/
theorem shards_all_merge_witness :
    (headDispatchAll (shardExecs 3) [clientDoc]).length =
      3 * [clientDoc].length + 3 ∧
    headDispatchAll (shardExecs 3) [clientDoc] =
      (List.range 3).flatMap (fun i => appendTagExec i [clientDoc]) ∧
    (headDispatchAll (shardExecs 3) [clientDoc]).filterMap Doc.tag =
      List.range 3 :=
  shards_all_merge 3 [clientDoc] (by decide)

/-- A request handler inside an executor, as the routing core sees it:
a transformation of a document. -/
abbrev Handler := Doc → Doc

/-- The `foo` handler of `MyExec` in `test_override_requests`: sets the
document text to `foo`. -/
def fooHandler : Handler := fun d => { d with text := "foo" }

/-- The `bar` handler of `MyExec`: sets the document text to `bar`. -/
def barHandler : Handler := fun d => { d with text := "bar" }

/-- The `foobar` handler of `MyExec`: sets the document text to `foobar`. -/
def foobarHandler : Handler := fun d => { d with text := "foobar" }

/-- Modelled from the spec (§4.1): resolve an endpoint name against the
executor's endpoint table; the launch-argument overrides (`uses_requests`)
are consulted first and take precedence over the decorator-declared
bindings. -/
def resolveHandler (declared overrides : List (String × Handler))
    (ep : String) : Option Handler :=
  match overrides.lookup ep with
  | some hd => some hd
  | none => declared.lookup ep

/-- Modelled from the spec (§4.1): serve one request at an endpoint: apply
the handler the endpoint resolves to; an endpoint bound by no entry falls
back to the handler bound to `/default` (the default handler); with no
default the document is returned unchanged. -/
def serveEndpoint (declared overrides : List (String × Handler))
    (ep : String) (d : Doc) : Doc :=
  match resolveHandler declared overrides ep with
  | some hd => hd d
  | none =>
      match resolveHandler declared overrides "/default" with
      | some hd => hd d
      | none => d

/-- The declared endpoint table of `MyExec` in `test_override_requests`:
`foo` is the default handler (bound to `/default`), `foobar` is declared on
`/1` and `/2`, and `bar` is undecorated, so it is bound to nothing. -/
def myExecDeclared : List (String × Handler) :=
  [("/default", fooHandler), ("/1", foobarHandler), ("/2", foobarHandler)]

/-- The launch-argument override of the test:
`uses_requests = ... /index to bar ...`. -/
def myExecOverrides : List (String × Handler) :=
  [("/index", barHandler)]

/-- C5: with `MyExec` launched under the override binding `/index → bar`,
a request to `/index` is served by `bar`, a request to `/1` by `foobar`,
and a request to any endpoint bound by no entry by the default handler
`foo`; an override entry for an endpoint always wins over a decorator
declaration for the same endpoint. -/
theorem override_requests (d : Doc) (ep : String) (h' : Handler)
    (h : ep ∉ ["/index", "/1", "/2", "/default"]) :
    (serveEndpoint myExecDeclared myExecOverrides "/index" d).text = "bar" ∧
    (serveEndpoint myExecDeclared myExecOverrides "/1" d).text = "foobar" ∧
    (serveEndpoint myExecDeclared myExecOverrides ep d).text = "foo" ∧
    resolveHandler myExecDeclared (("/1", h') :: myExecOverrides) "/1" =
      some h' := by
  simp at h
  obtain ⟨h1, h2, h3, h4⟩ := h
  have e1 : (ep == "/index") = false := by simp [h1]
  have e2 : (ep == "/1") = false := by simp [h2]
  have e3 : (ep == "/2") = false := by simp [h3]
  have e4 : (ep == "/default") = false := by simp [h4]
  refine ⟨rfl, rfl, ?_, rfl⟩
  simp [serveEndpoint, resolveHandler, myExecDeclared, myExecOverrides,
    List.lookup, e1, e2, e3, e4, fooHandler]

/-- Witness for C5 at the unbound endpoint `/other`. -/
theorem override_requests_witness :
    (serveEndpoint myExecDeclared myExecOverrides "/index" clientDoc).text =
      "bar" ∧
    (serveEndpoint myExecDeclared myExecOverrides "/1" clientDoc).text =
      "foobar" ∧
    (serveEndpoint myExecDeclared myExecOverrides "/other" clientDoc).text =
      "foo" ∧
    resolveHandler myExecDeclared (("/1", barHandler) :: myExecOverrides)
      "/1" = some barHandler :=
  override_requests clientDoc "/other" barHandler (by decide)
